import Mathlib

/-!
# Verification of the Fiscalia SAT bulk-retrieval core against its specification

This file gives a shallow embedding of the parts of the repository that the
frozen claims are about, and proves (or refutes) each claim over that
embedding.

Embedded directly from the source:
* `web/src/lib/curp.js` — `parseCurp` and `rfcBaseFromCurp`;
* `web/src/routes/Reports.jsx` — the `onDrop` XML-import batch loop
  (UUID extraction regex, per-file skip/continue control flow, counters);
* `docs/schema_supabase.sql` — the `sat_jobs.status` check constraint;
* `scripts/test_sat_flow.ps1` — the job-poll continue set;
* `web/src/routes/Dashboard.jsx` — `pollJob`'s terminal-state set.

The backend job orchestrator itself (`backend/app/routers/sat.py`,
`backend/app/services/sat_provider.py`, `backend/app/services/sat_sat20.py`)
is not present in the repository snapshot — only its README, docs, schema and
callers are — so the orchestrator, signer, decoder and job store are modelled
from the specification; each such definition is marked `Modelled from the
spec:` in its doc comment.
-/

/-! ## Part 1: embedding of `web/src/lib/curp.js` -/

/-- JavaScript `String.prototype.trim` over a character list: drop whitespace
from both ends (embeds the `.trim()` calls in `curp.js`). -/
def jsTrim (l : List Char) : List Char :=
  ((l.dropWhile Char.isWhitespace).reverse.dropWhile Char.isWhitespace).reverse

/-- Normalization shared by `parseCurp` and `rfcBaseFromCurp` in `curp.js`:
`String(curp).toUpperCase().trim()` (ASCII uppercase). -/
def normalizeCurp (s : String) : List Char :=
  jsTrim (s.data.map Char.toUpper)

/-- Character class `[A-Z]` of the regexes in `curp.js`. -/
def isUpperAlpha (c : Char) : Bool :=
  decide ('A' ≤ c) && decide (c ≤ 'Z')

/-- Character class `\d` (= `[0-9]`) of the regexes in `curp.js`. -/
def isDigitCh (c : Char) : Bool :=
  decide ('0' ≤ c) && decide (c ≤ '9')

/-- Character class `[A-Z0-9]` of the regexes in `curp.js`. -/
def isAlnumUpper (c : Char) : Bool :=
  isUpperAlpha c || isDigitCh c

/-- Character class `[HM]` of the regexes in `curp.js`. -/
def isSexCh (c : Char) : Bool :=
  decide (c = 'H') || decide (c = 'M')

/-- Position check `classAt l i p`: the character at position `i` exists and satisfies `p`. -/
def classAt (l : List Char) (i : Nat) (p : Char → Bool) : Bool :=
  match l.get? i with
  | some c => p c
  | none => false

/-- The first 13 positions of the CURP shape, common to both regexes in
`curp.js`: `^[A-Z]{4}\d{6}[HM][A-Z]{2}` (4 letters, 6 digits, sex, 2-letter
entity code). -/
def curpPrefixShape (l : List Char) : Bool :=
  classAt l 0 isUpperAlpha && classAt l 1 isUpperAlpha &&
  classAt l 2 isUpperAlpha && classAt l 3 isUpperAlpha &&
  classAt l 4 isDigitCh && classAt l 5 isDigitCh &&
  classAt l 6 isDigitCh && classAt l 7 isDigitCh &&
  classAt l 8 isDigitCh && classAt l 9 isDigitCh &&
  classAt l 10 isSexCh &&
  classAt l 11 isUpperAlpha && classAt l 12 isUpperAlpha

/-- The full anchored CURP regex of `parseCurp`:
`^[A-Z]{4}(\d{2})(\d{2})(\d{2})([HM])([A-Z]{2})[A-Z]{3}[A-Z0-9]{2}$`. -/
def curpFullShape (l : List Char) : Bool :=
  decide (l.length = 18) && curpPrefixShape l &&
  classAt l 13 isUpperAlpha && classAt l 14 isUpperAlpha &&
  classAt l 15 isUpperAlpha &&
  classAt l 16 isAlnumUpper && classAt l 17 isAlnumUpper

/-- The `ENTITY_MAP` table of `curp.js`. -/
def ENTITY_MAP : List (String × String) :=
  [("AS", "AGUASCALIENTES"), ("BC", "BAJA CALIFORNIA"),
   ("BS", "BAJA CALIFORNIA SUR"), ("CC", "CAMPECHE"), ("CL", "COAHUILA"),
   ("CM", "COLIMA"), ("CS", "CHIAPAS"), ("CH", "CHIHUAHUA"),
   ("DF", "CIUDAD DE MÉXICO"), ("DG", "DURANGO"), ("GT", "GUANAJUATO"),
   ("GR", "GUERRERO"), ("HG", "HIDALGO"), ("JC", "JALISCO"),
   ("MC", "MÉXICO"), ("MN", "MICHOACÁN"), ("MS", "MORELOS"),
   ("NT", "NAYARIT"), ("NL", "NUEVO LEÓN"), ("OC", "OAXACA"),
   ("PL", "PUEBLA"), ("QT", "QUERÉTARO"), ("QR", "QUINTANA ROO"),
   ("SP", "SAN LUIS POTOSÍ"), ("SL", "SINALOA"), ("SR", "SONORA"),
   ("TC", "TABASCO"), ("TS", "TAMAULIPAS"), ("TL", "TLAXCALA"),
   ("VZ", "VERACRUZ"), ("YN", "YUCATÁN"), ("ZS", "ZACATECAS"),
   ("NE", "NACIDO EN EL EXTRANJERO")]

/-- Result record of `parseCurp` in `curp.js`. -/
structure CurpInfo where
  birth_date : String
  gender : String
  birth_state : String
  entity_code : String
  rfc_base : String
deriving DecidableEq, Repr

/-- Numeric value of a digit character (total, junk on non-digits). -/
def digitVal (c : Char) : Nat := c.toNat - '0'.toNat

/-- The two-digit number at positions `i`, `i+1` (JS `parseInt` on the
two-character capture groups of the CURP regex). -/
def twoDigitsAt (l : List Char) (i : Nat) : Nat :=
  10 * digitVal (l.getD i '0') + digitVal (l.getD (i + 1) '0')

/-- JS `String(n).padStart(2, '0')` for the month/day numbers. -/
def pad2 (n : Nat) : String :=
  if n < 10 then "0" ++ toString n else toString n

/-- Embeds `parseCurp` from `curp.js`. `currentYY` is the ambient clock's
`new Date().getFullYear() % 100`; everything else follows the source line by
line: falsy guard, normalization, anchored regex match, century resolution
`(yy <= currentYY ? 2000 : 1900) + yy`, `birth_date` string construction
without any calendar validation, gender, entity lookup with fallback to the
raw code, and `rfc_base = s.slice(0, 4) + yy + mm + dd`. -/
def parseCurp (currentYY : Nat) (curp : String) : Option CurpInfo :=
  if curp = "" then none
  else
    let l := normalizeCurp curp
    if curpFullShape l then
      let yy := twoDigitsAt l 4
      let year := (if yy ≤ currentYY then 2000 else 1900) + yy
      let month := twoDigitsAt l 6
      let day := twoDigitsAt l 8
      let sx := l.getD 10 ' '
      let ent := String.mk [l.getD 11 ' ', l.getD 12 ' ']
      some
        { birth_date := toString year ++ "-" ++ pad2 month ++ "-" ++ pad2 day
          gender := if sx = 'H' then "Hombre" else "Mujer"
          birth_state := ((ENTITY_MAP.lookup ent).getD ent)
          entity_code := ent
          rfc_base := String.mk (l.take 10) }
    else none

/-- Embeds `rfcBaseFromCurp` from `curp.js`: normalize, match the prefix
regex `^[A-Z]{4}(\d{2})(\d{2})(\d{2})[HM][A-Z]{2}` (no end anchor), and
return `s.slice(0, 4) + yy + mm + dd`, i.e. the first ten characters. -/
def rfcBaseFromCurp (curp : String) : Option String :=
  let l := normalizeCurp curp
  if curpPrefixShape l then some (String.mk (l.take 10)) else none

/-- A reasonable validity checker for the `YYYY-MM-DD` strings that
`parseCurp` builds: the last six characters must be `-MM-DD`, the leading
part a nonempty string of digits, the month in `1..12` and the day in
`1..(days of that month)` (Gregorian leap rule). This is the spec-side
notion of "valid calendar date" used to settle claim C10. -/
def daysInMonth (year month : Nat) : Nat :=
  if month = 2 then
    if year % 4 = 0 && (year % 100 ≠ 0 || year % 400 = 0) then 29 else 28
  else if month = 4 || month = 6 || month = 9 || month = 11 then 30
  else 31

/-- Digits-to-number helper for `validDateString`. -/
def natOfDigits (l : List Char) : Nat :=
  l.foldl (fun acc c => 10 * acc + digitVal c) 0

/-- Is `s` of the form `YYYY…Y-MM-DD` denoting a real Gregorian date?
(Used only to state claim C10; see `daysInMonth`.) -/
def validDateString (s : String) : Bool :=
  let l := s.data
  let n := l.length
  if n < 8 then false
  else
    let ypart := l.take (n - 6)
    let rest := l.drop (n - 6)
    match rest with
    | ['-', m1, m2, '-', d1, d2] =>
      ypart.all isDigitCh && isDigitCh m1 && isDigitCh m2 &&
      isDigitCh d1 && isDigitCh d2 &&
      (let y := natOfDigits ypart
       let m := 10 * digitVal m1 + digitVal m2
       let d := 10 * digitVal d1 + digitVal d2
       decide (1 ≤ m) && decide (m ≤ 12) && decide (1 ≤ d) &&
       decide (d ≤ daysInMonth y m))
    | _ => false

example : parseCurp 25 "GOMC900514HDFMRR09" =
    some { birth_date := "1990-05-14", gender := "Hombre",
           birth_state := "CIUDAD DE MÉXICO", entity_code := "DF",
           rfc_base := "GOMC900514" } := by decide

example : rfcBaseFromCurp "GOMC900514HDFMRR09" = some "GOMC900514" := by decide

example : parseCurp 25 "GOMC900514XDFMRR09" = none := by decide

example : validDateString "1990-05-14" = true := by decide

example : validDateString "1999-13-32" = false := by decide

/-- C9. For every input string on which `parseCurp` returns a non-null
result, `rfcBaseFromCurp` returns a non-null result on the same string and it
equals the `rfc_base` field of `parseCurp`'s result (the first four letters
of the CURP followed by its six birth-date digits). -/
theorem parseCurp_rfcBaseFromCurp_agree (currentYY : Nat) (curp : String)
    (info : CurpInfo) (h : parseCurp currentYY curp = some info) :
    rfcBaseFromCurp curp = some info.rfc_base := by
  unfold parseCurp at h
  split at h
  · exact absurd h (by simp)
  · by_cases hs : curpFullShape (normalizeCurp curp) = true
    · have hp : curpPrefixShape (normalizeCurp curp) = true := by
        unfold curpFullShape at hs
        simp only [Bool.and_eq_true] at hs
        tauto
      rw [if_pos hs] at h
      unfold rfcBaseFromCurp
      rw [if_pos hp]
      have := Option.some.inj h
      subst this
      rfl
    · rw [if_neg hs] at h
      exact absurd h (by simp)

/-- Closed witness for C9 at a concrete CURP. -/
theorem parseCurp_rfcBaseFromCurp_agree_witness :
    rfcBaseFromCurp "GOMC900514HDFMRR09" = some "GOMC900514" :=
  parseCurp_rfcBaseFromCurp_agree 25 "GOMC900514HDFMRR09"
    { birth_date := "1990-05-14", gender := "Hombre",
      birth_state := "CIUDAD DE MÉXICO", entity_code := "DF",
      rfc_base := "GOMC900514" } (by decide)
/-- C10. `parseCurp` does not validate the calendar date embedded in a
CURP: on the shape-conforming input `AAAA991332HDFAAA01` (month digits 13,
day digits 32) it returns a non-null result, for every ambient clock value,
and the resulting `birth_date` string is not a valid calendar date. -/
theorem parseCurp_accepts_invalid_calendar_date (currentYY : Nat) :
    (parseCurp currentYY "AAAA991332HDFAAA01").map
      (fun i => validDateString i.birth_date) = some false := by
  unfold parseCurp
  rw [if_neg (by decide)]
  simp only [show curpFullShape (normalizeCurp "AAAA991332HDFAAA01") = true from by decide,
    if_true, show twoDigitsAt (normalizeCurp "AAAA991332HDFAAA01") 4 = 99 from by decide]
  by_cases h : 99 ≤ currentYY
  · rw [if_pos h]
    decide
  · rw [if_neg h]
    decide

/-! ## Part 2: embedding of the `onDrop` XML-import batch loop
(`web/src/routes/Reports.jsx`, `ImportXml`) -/

/-- Case-insensitive character comparison, for the `/i` flag of the
`/UUID="([^"]+)"/i` regex in `onDrop`. -/
def ciEqCh (a b : Char) : Bool := a.toLower = b.toLower

/-- Try to match the literal `UUID="` (letters case-insensitive) at the head
of the list; on success return the remainder after the opening quote. -/
def matchUuidKeyAt : List Char → Option (List Char)
  | u1 :: u2 :: i :: d :: '=' :: '"' :: rest =>
    if ciEqCh u1 'U' && ciEqCh u2 'U' && ciEqCh i 'I' && ciEqCh d 'D' then
      some rest
    else none
  | _ => none

/-- The capture group `([^"]+)"`: one or more non-quote characters followed
by a closing quote. -/
def captureToQuote (l : List Char) : Option String :=
  let cap := l.takeWhile (fun c => !decide (c = '"'))
  if cap.isEmpty then none
  else if (l.drop cap.length).head? = some '"' then some (String.mk cap)
  else none

/-- Embeds `/UUID="([^"]+)"/i.exec(text)?.[1] || null` from `onDrop`:
leftmost match of the pattern, returning the capture, else `none`. -/
def extractUuid : List Char → Option String
  | [] => none
  | c :: cs =>
    match matchUuidKeyAt (c :: cs) with
    | some rest =>
      match captureToQuote rest with
      | some u => some u
      | none => extractUuid cs
    | none => extractUuid cs

/-- One dropped file: its name and its text content. -/
structure XmlFile where
  name : String
  text : String

/-- Outcome of an external call (Supabase storage upload / `cfdi` upsert). -/
inductive UpsertResult
  | ok
  | err (msg : String)

/-- Ambient context of one `onDrop` run: the authenticated user, the
(possibly missing) default company, and the outcomes of the storage and
database collaborators, keyed by storage key and UUID respectively. -/
structure ImportEnv where
  userId : String
  companyId : Option String
  storage : String → UpsertResult
  db : String → UpsertResult

/-- The `summary` state of `onDrop`:
`\x7b total, ok, skipped, storageFailed, dbFailed \x7d`. -/
structure ImportSummary where
  total : Nat
  ok : Nat
  skipped : Nat
  storageFailed : Nat
  dbFailed : Nat
deriving DecidableEq, Repr

/-- The storage key built in `onDrop`:
backtick-template `user.id/(company_id or default)/uuid.xml`. -/
def storageKey (env : ImportEnv) (uuid : String) : String :=
  env.userId ++ "/" ++ env.companyId.getD "default" ++ "/" ++ uuid ++ ".xml"

/-- One iteration of the `for (const file of files)` loop in `onDrop`:
no extractable UUID → log `sin UUID`, bump `skipped`, continue; storage
upload error → bump `storageFailed`, throw (caught by the per-file catch,
which only logs), continue; database upsert error → bump `dbFailed`;
otherwise bump `ok`. State is the summary plus the log list. -/
def processFile (env : ImportEnv) (st : ImportSummary × List String)
    (f : XmlFile) : ImportSummary × List String :=
  match extractUuid f.text.data with
  | none => ({ st.1 with skipped := st.1.skipped + 1 },
             st.2 ++ [f.name ++ ": sin UUID"])
  | some uuid =>
    match env.storage (storageKey env uuid) with
    | .err m => ({ st.1 with storageFailed := st.1.storageFailed + 1 },
                 st.2 ++ [f.name ++ ": " ++ m])
    | .ok =>
      match env.db uuid with
      | .err m => ({ st.1 with dbFailed := st.1.dbFailed + 1 },
                   st.2 ++ [f.name ++ ": " ++ m])
      | .ok => ({ st.1 with ok := st.1.ok + 1 }, st.2 ++ [f.name ++ ": OK"])

/-- The whole `onDrop` batch: summary initialised with
`total := files.length` and zero counters, then the per-file loop. -/
def onDropProcess (env : ImportEnv) (files : List XmlFile) :
    ImportSummary × List String :=
  files.foldl (processFile env)
    ({ total := files.length, ok := 0, skipped := 0, storageFailed := 0,
       dbFailed := 0 }, [])

/-- Classification of what `processFile` does with one file. -/
inductive FileOutcome
  | emitted
  | noUuid
  | storageFail
  | dbFail
deriving DecidableEq, Repr

/-- The outcome `processFile` will assign to `f` (depends only on the
environment and the file, never on the running counters). -/
def fileOutcome (env : ImportEnv) (f : XmlFile) : FileOutcome :=
  match extractUuid f.text.data with
  | none => .noUuid
  | some uuid =>
    match env.storage (storageKey env uuid) with
    | .err _ => .storageFail
    | .ok =>
      match env.db uuid with
      | .err _ => .dbFail
      | .ok => .emitted

/-- Number of files in the list with the given outcome. -/
def outcomeCount (env : ImportEnv) (o : FileOutcome) : List XmlFile → Nat
  | [] => 0
  | f :: fs => (if fileOutcome env f = o then 1 else 0) + outcomeCount env o fs

theorem outcomeCount_append (env : ImportEnv) (o : FileOutcome)
    (xs ys : List XmlFile) :
    outcomeCount env o (xs ++ ys) = outcomeCount env o xs + outcomeCount env o ys := by
  induction xs with
  | nil => simp [outcomeCount]
  | cons f fs ih => simp [outcomeCount, ih]; omega

theorem processFile_counters (env : ImportEnv) (f : XmlFile)
    (st : ImportSummary × List String) :
    (processFile env st f).1.total = st.1.total ∧
    (processFile env st f).1.ok
      = st.1.ok + (if fileOutcome env f = .emitted then 1 else 0) ∧
    (processFile env st f).1.skipped
      = st.1.skipped + (if fileOutcome env f = .noUuid then 1 else 0) ∧
    (processFile env st f).1.storageFailed
      = st.1.storageFailed + (if fileOutcome env f = .storageFail then 1 else 0) ∧
    (processFile env st f).1.dbFailed
      = st.1.dbFailed + (if fileOutcome env f = .dbFail then 1 else 0) := by
  unfold processFile fileOutcome
  cases hE : extractUuid f.text.data with
  | none => simp [hE]
  | some uuid =>
    cases hS : env.storage (storageKey env uuid) with
    | ok =>
      cases hD : env.db uuid with
      | ok => simp [hE, hS, hD]
      | err m => simp [hE, hS, hD]
    | err m => simp [hE, hS]

theorem onDrop_foldl_counts (env : ImportEnv) (files : List XmlFile) :
    ∀ st : ImportSummary × List String,
    (files.foldl (processFile env) st).1.total = st.1.total ∧
    (files.foldl (processFile env) st).1.ok
      = st.1.ok + outcomeCount env .emitted files ∧
    (files.foldl (processFile env) st).1.skipped
      = st.1.skipped + outcomeCount env .noUuid files ∧
    (files.foldl (processFile env) st).1.storageFailed
      = st.1.storageFailed + outcomeCount env .storageFail files ∧
    (files.foldl (processFile env) st).1.dbFailed
      = st.1.dbFailed + outcomeCount env .dbFail files := by
  induction files with
  | nil => intro st; simp [outcomeCount]
  | cons f fs ih =>
    intro st
    have hstep := processFile_counters env f st
    have hrest := ih (processFile env st f)
    simp only [List.foldl_cons, outcomeCount] at *
    rcases hstep with ⟨h1, h2, h3, h4, h5⟩
    rcases hrest with ⟨g1, g2, g3, g4, g5⟩
    rcases hof : fileOutcome env f <;> simp [hof] at h2 h3 h4 h5 ⊢ <;> omega

/-- C4. In the `onDrop` batch loop, a malformed entry (one whose UUID
cannot be extracted) is skipped and counted in the `skipped` counter, and
processing of all remaining entries continues unchanged: inserting such an
entry anywhere into a batch leaves the `ok`, `storageFailed` and `dbFailed`
counters of the run exactly as they were without it, and increments
`skipped` (and `total`) by exactly one — a single bad entry never aborts the
batch. -/
theorem onDrop_malformed_skipped_batch_continues (env : ImportEnv)
    (xs ys : List XmlFile) (bad : XmlFile)
    (h : extractUuid bad.text.data = none) :
    (onDropProcess env (xs ++ bad :: ys)).1.ok
      = (onDropProcess env (xs ++ ys)).1.ok ∧
    (onDropProcess env (xs ++ bad :: ys)).1.storageFailed
      = (onDropProcess env (xs ++ ys)).1.storageFailed ∧
    (onDropProcess env (xs ++ bad :: ys)).1.dbFailed
      = (onDropProcess env (xs ++ ys)).1.dbFailed ∧
    (onDropProcess env (xs ++ bad :: ys)).1.skipped
      = (onDropProcess env (xs ++ ys)).1.skipped + 1 ∧
    (onDropProcess env (xs ++ bad :: ys)).1.total
      = (onDropProcess env (xs ++ ys)).1.total + 1 := by
  have hbad : fileOutcome env bad = .noUuid := by
    unfold fileOutcome
    rw [h]
  have h1 := onDrop_foldl_counts env (xs ++ bad :: ys)
    ({ total := (xs ++ bad :: ys).length, ok := 0, skipped := 0,
       storageFailed := 0, dbFailed := 0 }, [])
  have h2 := onDrop_foldl_counts env (xs ++ ys)
    ({ total := (xs ++ ys).length, ok := 0, skipped := 0,
       storageFailed := 0, dbFailed := 0 }, [])
  rcases h1 with ⟨a1, a2, a3, a4, a5⟩
  rcases h2 with ⟨b1, b2, b3, b4, b5⟩
  unfold onDropProcess
  have hc : ∀ o, outcomeCount env o (xs ++ bad :: ys)
      = outcomeCount env o (xs ++ ys)
        + (if FileOutcome.noUuid = o then 1 else 0) := by
    intro o
    rw [outcomeCount_append, outcomeCount_append]
    cases o <;> simp [outcomeCount, hbad]
    omega
  refine ⟨?_, ?_, ?_, ?_, ?_⟩
  · rw [a2, b2, hc]; simp
  · rw [a4, b4, hc]; simp
  · rw [a5, b5, hc]; simp
  · rw [a3, b3, hc]; simp
  · rw [a1, b1]
    show (xs ++ bad :: ys).length = (xs ++ ys).length + 1
    simp
    omega

/-- Concrete import environment for the C4 witness: storage and database
always succeed. -/
def witnessEnv : ImportEnv :=
  { userId := "u1", companyId := some "c1",
    storage := fun _ => UpsertResult.ok, db := fun _ => UpsertResult.ok }

/-- A well-formed dropped file. -/
def goodFileA : XmlFile := { name := "a.xml", text := "<cfdi UUID=\"AAA-1\"/>" }

/-- Another well-formed dropped file. -/
def goodFileB : XmlFile := { name := "b.xml", text := "<cfdi UUID=\"BBB-2\"/>" }

/-- A malformed dropped file: no UUID attribute anywhere. -/
def badFile : XmlFile := { name := "bad.xml", text := "<cfdi Version=\"4.0\"/>" }

/-- Closed witness for C4 at a concrete three-file batch. -/
theorem onDrop_malformed_skipped_batch_continues_witness :
    extractUuid badFile.text.data = none ∧
    (onDropProcess witnessEnv [goodFileA, badFile, goodFileB]).1.skipped
      = (onDropProcess witnessEnv [goodFileA, goodFileB]).1.skipped + 1 ∧
    (onDropProcess witnessEnv [goodFileA, badFile, goodFileB]).1.ok
      = (onDropProcess witnessEnv [goodFileA, goodFileB]).1.ok :=
  ⟨by decide,
   (onDrop_malformed_skipped_batch_continues witnessEnv [goodFileA] [goodFileB]
      badFile (by decide)).2.2.2.1,
   (onDrop_malformed_skipped_batch_continues witnessEnv [goodFileA] [goodFileB]
      badFile (by decide)).1⟩

/-! ## Part 3: recorded job states — schema constraint versus the job flow
(`docs/schema_supabase.sql`, `scripts/test_sat_flow.ps1`,
`web/src/routes/Dashboard.jsx`) -/

/-- The states of the specification's job state machine:
`queued -> running -> verifying -> success | error`. -/
inductive JobState
  | queued
  | running
  | verifying
  | success
  | error
deriving DecidableEq, Repr

/-- The database name of each state. -/
def JobState.name : JobState → String
  | .queued => "queued"
  | .running => "running"
  | .verifying => "verifying"
  | .success => "success"
  | .error => "error"

/-- Embeds the check constraint on `sat_jobs.status` from
`docs/schema_supabase.sql`:
`status text check (status in ('queued','running','success','error'))`.
A row update whose status is outside this set is rejected by the database. -/
def satJobsStatusCheck (status : String) : Bool :=
  status = "queued" || status = "running" || status = "success" ||
  status = "error"

/-- Embeds the poll-continue set of the repository's own flow test
(`scripts/test_sat_flow.ps1`, the sync-job poll loop:
`if ($j.status -notin 'queued','running','verifying') \x7b break \x7d`):
the statuses the test keeps polling through, i.e. the non-terminal statuses
the flow is expected to expose. -/
def testPollContinues (status : String) : Bool :=
  status = "queued" || status = "running" || status = "verifying"

/-- Embeds the terminal-state test of `pollJob` in
`web/src/routes/Dashboard.jsx`:
`if (job?.status === 'success' || job?.status === 'error') return job?.status`. -/
def dashboardTerminal (status : String) : Bool :=
  status = "success" || status = "error"

/-- C2, refuting theorem. The claim says the recorded job state ranges
over `queued, running, verifying, success, error` and that `verifying` is
observable during the poll loop. The repository's own flow test polls
through the `verifying` status (and the dashboard's poll loop does not treat
it as terminal), but the `sat_jobs` check constraint rejects it: a job row
can never record the `verifying` state, so the verification phase of the
state machine is unobservable in the job record. -/
theorem satJobs_check_rejects_verifying :
    satJobsStatusCheck (JobState.verifying.name) = false ∧
    testPollContinues (JobState.verifying.name) = true ∧
    dashboardTerminal (JobState.verifying.name) = false ∧
    satJobsStatusCheck (JobState.queued.name) = true ∧
    satJobsStatusCheck (JobState.running.name) = true ∧
    satJobsStatusCheck (JobState.success.name) = true ∧
    satJobsStatusCheck (JobState.error.name) = true := by
  decide

/-! ## Part 4: the missing backend core, modelled from the spec

The repository snapshot contains the backend's README, docs, schema and
callers, but not `backend/app/routers/sat.py`,
`backend/app/services/sat_provider.py` or
`backend/app/services/sat_sat20.py`. The definitions below are therefore
modelled from the specification (sections 4.2–4.5 and 6), and the theorems
about them settle the claims against that model. -/

/-- Modelled from the spec: the certificate of a `CredentialBundle`,
abstracted to its public key (the only component the signing contract
depends on). Missing source: `backend/app/services/sat_sat20.py`. -/
structure Certificate where
  pubKey : Nat
deriving DecidableEq, Repr

/-- Modelled from the spec: the private key of a `CredentialBundle`, with
its public component and secret material. Missing source:
`backend/app/services/sat_sat20.py`. -/
structure PrivateKey where
  pubComponent : Nat
  secret : Nat
deriving DecidableEq, Repr

/-- The signer's failure modes named by the spec (§4.2). -/
inductive SignError
  | signingKeyMismatch
  | unsupportedAlgorithm
deriving DecidableEq, Repr

/-- A signed authentication envelope: binary security token, digest and
signature bound together (spec §4.2, `SignedEnvelope`). -/
structure SignedEnvelope where
  token : Nat
  digest : Nat
  signature : Nat
deriving DecidableEq, Repr

/-- Modelled from the spec: the Message Signer (§4.2). Missing source:
`backend/app/services/sat_sat20.py` (WS-Security signing of `Autentica`).
An optional forced-algorithm override that the runtime cannot satisfy fails
with `UnsupportedAlgorithm`; a private key whose public component does not
match the certificate fails with `SigningKeyMismatch` before any signature
is produced; otherwise the envelope is assembled deterministically from the
digest and the key. -/
def signEnvelope (supported : String → Bool) (algOverride : Option String)
    (cert : Certificate) (key : PrivateKey) (digest : Nat) :
    Except SignError SignedEnvelope :=
  match algOverride with
  | some a =>
    if supported a then
      if key.pubComponent = cert.pubKey then
        Except.ok { token := cert.pubKey, digest := digest,
                    signature := digest + key.secret }
      else Except.error .signingKeyMismatch
    else Except.error .unsupportedAlgorithm
  | none =>
    if key.pubComponent = cert.pubKey then
      Except.ok { token := cert.pubKey, digest := digest,
                  signature := digest + key.secret }
    else Except.error .signingKeyMismatch

/-- C5. For all (certificate, key) pairs, under any forced-algorithm
override the runtime supports (in particular under the default, no
override), signing succeeds if and only if the key's public component
matches the certificate's public key, and every mismatched pair fails with
`SigningKeyMismatch` — never a silently produced signature.
(spec-modelled: the signer source is not in the repository snapshot.) -/
theorem signEnvelope_succeeds_iff_key_matches (supported : String → Bool)
    (algOverride : Option String) (cert : Certificate) (key : PrivateKey)
    (digest : Nat)
    (halg : ∀ a, algOverride = some a → supported a = true) :
    ((∃ env, signEnvelope supported algOverride cert key digest
        = Except.ok env) ↔ key.pubComponent = cert.pubKey) ∧
    (key.pubComponent ≠ cert.pubKey →
      signEnvelope supported algOverride cert key digest
        = Except.error .signingKeyMismatch) := by
  cases algOverride with
  | none =>
    by_cases h : key.pubComponent = cert.pubKey <;>
      simp [signEnvelope, h]
  | some a =>
    have ha : supported a = true := halg a rfl
    by_cases h : key.pubComponent = cert.pubKey <;>
      simp [signEnvelope, ha, h]

/-- Closed witness for C5: a mismatched pair under the default algorithm. -/
theorem signEnvelope_succeeds_iff_key_matches_witness :
    signEnvelope (fun _ => true) none { pubKey := 2 }
      { pubComponent := 1, secret := 7 } 5
      = Except.error .signingKeyMismatch :=
  (signEnvelope_succeeds_iff_key_matches (fun _ => true) none
    { pubKey := 2 } { pubComponent := 1, secret := 7 } 5
    (fun _ h => by cases h)).2 (by decide)

/-- Document direction of a retrieval job (spec §3, `RetrievalJob`). -/
inductive Direction
  | issued
  | received
deriving DecidableEq, Repr

/-- The four remote operations of the protocol (spec §4.3); used to log
which network calls an operation performs. -/
inductive NetworkCall
  | authenticate
  | requestBatch
  | verifyBatch
  | downloadPackage
deriving DecidableEq, Repr

/-- Submission failure (spec §6: `SubmitJob` validates the date range). -/
inductive SubmitError
  | invalidRange
deriving DecidableEq, Repr

/-- The `RetrievalJob` record (spec §3), restricted to the fields the
claims are about. Dates are day ordinals, so `dateFrom ≤ dateTo` is the
spec's `date_from <= date_to`. -/
structure RetrievalJob where
  direction : Direction
  dateFrom : Nat
  dateTo : Nat
  state : JobState
  totalFound : Option Nat
  totalDownloaded : Option Nat
  fallbackFromFull : Bool
  lastError : Option String
deriving DecidableEq, Repr

/-- Modelled from the spec: `SubmitJob` (§6) — validates
`dateFrom <= dateTo` and enqueues the job in the `queued` state; it talks
only to the job store, so its network-call log (second component) is empty:
an invalid range is rejected before any network call. Missing source:
`backend/app/routers/sat.py` (`POST /sat/sync`). -/
def submitJob (direction : Direction) (dateFrom dateTo : Nat) :
    Except SubmitError RetrievalJob × List NetworkCall :=
  (if dateFrom ≤ dateTo then
     Except.ok { direction := direction, dateFrom := dateFrom,
                 dateTo := dateTo, state := .queued, totalFound := none,
                 totalDownloaded := none, fallbackFromFull := false,
                 lastError := none }
   else Except.error .invalidRange, [])

/-- C1. Every job submission validates `date_from <= date_to`: the
submission makes no network call at all, and it is rejected with
`invalidRange` exactly when the range is invalid — otherwise the job is
enqueued in the `queued` state.
(spec-modelled: the `POST /sat/sync` handler is not in the repository
snapshot; the UI caller in `Reports.jsx` and the `sat_jobs` schema carry no
date-range check of their own.) -/
theorem submitJob_validates_range (direction : Direction)
    (dateFrom dateTo : Nat) :
    (submitJob direction dateFrom dateTo).2 = [] ∧
    (submitJob direction dateFrom dateTo).1.map (fun j => j.state)
      = (if dateFrom ≤ dateTo then Except.ok JobState.queued
         else Except.error SubmitError.invalidRange) := by
  unfold submitJob
  by_cases h : dateFrom ≤ dateTo <;> simp [h, Except.map]

/-- The two request kinds of the protocol (spec §4.3, glossary):
`FullDocument` (CFDI) and `MetadataOnly` (Metadata). -/
inductive ReqKind
  | fullDocument
  | metadataOnly
deriving DecidableEq, Repr

/-- Request-stage faults (spec §4.3): `EmptyResult` is the protocol's
"no data in range" code (SAT code 5004), `payloadLimit` the class of
rejections that trigger the CFDI→Metadata fallback, and any other raw code
is propagated unchanged. -/
inductive RequestFault
  | emptyResult
  | payloadLimit
  | otherFault (code : String)
deriving DecidableEq, Repr

/-- Verification statuses (spec §4.3, `VerifyBatch`). -/
inductive VerifyStatus
  | inProgress
  | ready (packageIds : List String)
  | rejected
  | expired
deriving DecidableEq, Repr

/-- Modelled from the spec: one job's view of the remote service — the
outcome of authentication, of each request kind, of the i-th verification
poll, of each package download (`none` = download failure), and the bounded
number of poll attempts. Missing source:
`backend/app/services/sat_provider.py`. -/
structure RemoteService where
  auth : Except String Unit
  request : ReqKind → Except RequestFault String
  verify : Nat → VerifyStatus
  download : String → Option Nat
  maxPolls : Nat

/-- Outcome of the request stage. -/
inductive ReqOutcome
  | gotId (requestId : String)
  | empty
  | failed (f : RequestFault)
deriving DecidableEq, Repr

/-- Modelled from the spec: the request stage of the orchestrator (§4.4) —
request with `FullDocument` first; on a payload-limit rejection retry once
with `MetadataOnly` and report the fallback indicator; `EmptyResult` is a
successful zero-package outcome, any other fault fails the stage. Returns
the outcome, whether the fallback triggered, and the kinds attempted in
order. Missing source: `backend/app/services/sat_provider.py`. -/
def runRequestStage (remote : RemoteService) :
    ReqOutcome × Bool × List ReqKind :=
  match remote.request .fullDocument with
  | .ok rid => (.gotId rid, false, [.fullDocument])
  | .error .emptyResult => (.empty, false, [.fullDocument])
  | .error .payloadLimit =>
    match remote.request .metadataOnly with
    | .ok rid => (.gotId rid, true, [.fullDocument, .metadataOnly])
    | .error .emptyResult => (.empty, true, [.fullDocument, .metadataOnly])
    | .error f => (.failed f, true, [.fullDocument, .metadataOnly])
  | .error f => (.failed f, false, [.fullDocument])

/-- Modelled from the spec: the download phase (§4.4) — download every
package, accumulating the downloaded count; a partial failure still ends
the job in `error` but preserves the counts already accumulated. -/
def downloadPhase (remote : RemoteService) (j : RetrievalJob) :
    List String → Nat → Bool → RetrievalJob
  | [], downloaded, anyFailed =>
    { j with state := if anyFailed then .error else .success,
             totalDownloaded := some downloaded,
             lastError := if anyFailed then some "PackageUnavailable"
                          else j.lastError }
  | p :: ps, downloaded, anyFailed =>
    match remote.download p with
    | some _ => downloadPhase remote j ps (downloaded + 1) anyFailed
    | none => downloadPhase remote j ps downloaded true

/-- Modelled from the spec: the verification poll loop (§4.4) — re-invoke
`VerifyBatch` up to a bounded number of attempts; `in_progress` keeps
polling (the job snapshot stays observable in the `verifying` state),
`ready` proceeds to download, `rejected`/`expired`/timeout end in `error`.
Returns the job snapshots persisted from this point on. -/
def pollLoop (remote : RemoteService) (j : RetrievalJob) :
    Nat → Nat → List RetrievalJob
  | 0, _ => [{ j with state := .error, lastError := some "verify timeout" }]
  | fuel + 1, i =>
    match remote.verify i with
    | .inProgress => j :: pollLoop remote j fuel (i + 1)
    | .ready pkgs =>
      { j with totalFound := some pkgs.length } ::
        [downloadPhase remote { j with totalFound := some pkgs.length }
          pkgs 0 false]
    | .rejected => [{ j with state := .error, lastError := some "rejected" }]
    | .expired => [{ j with state := .error, lastError := some "expired" }]

/-- Modelled from the spec: one full orchestrator execution of a job
(§4.4) — pickup (`queued -> running`), authenticate (failure goes straight
to `error`), request stage with the at-most-one CFDI→Metadata fallback
(`EmptyResult` ends in `success` with zero counts), then
`running -> verifying` and the poll loop. Returns the sequence of persisted
job snapshots and the request kinds attempted. Missing source:
`backend/app/services/sat_provider.py`. -/
def runJob (remote : RemoteService) (j0 : RetrievalJob) :
    List RetrievalJob × List ReqKind :=
  let j1 := { j0 with state := .running }
  match remote.auth with
  | .error e =>
    ([j0, j1, { j1 with state := .error, lastError := some e }], [])
  | .ok _ =>
    match runRequestStage remote with
    | (.empty, fb, atts) =>
      ([j0, j1,
        { j1 with state := .success,
                  fallbackFromFull := j1.fallbackFromFull || fb,
                  totalFound := some 0, totalDownloaded := some 0 }], atts)
    | (.failed _, fb, atts) =>
      ([j0, j1,
        { j1 with state := .error,
                  fallbackFromFull := j1.fallbackFromFull || fb,
                  lastError := some "RequestFault" }], atts)
    | (.gotId _, fb, atts) =>
      let j2 := { j1 with
                  state := JobState.verifying,
                  fallbackFromFull := j1.fallbackFromFull || fb }
      (j0 :: j1 :: j2 :: pollLoop remote j2 remote.maxPolls 0, atts)

/-- C6. A job whose batch request is answered with `EmptyResult`
("no data in range") ends in `success`, not `error`, with
`total_found = 0` and `total_downloaded = 0`.
(spec-modelled: the orchestrator source is not in the repository snapshot;
the repo's own docs record SAT code 5004 as "No es error".) -/
theorem runJob_emptyResult_is_success (remote : RemoteService)
    (j0 : RetrievalJob) (hauth : remote.auth = Except.ok ())
    (hreq : remote.request .fullDocument = Except.error .emptyResult) :
    ∃ jf, (runJob remote j0).1.getLast? = some jf ∧
      jf.state = JobState.success ∧ jf.totalFound = some 0 ∧
      jf.totalDownloaded = some 0 := by
  unfold runJob runRequestStage
  rw [hauth, hreq]
  simp

/-- Remote service for the C6 witness: authentication succeeds and every
batch request is answered with `EmptyResult`. -/
def remoteEmptyRange : RemoteService :=
  { auth := Except.ok (), request := fun _ => Except.error .emptyResult,
    verify := fun _ => .inProgress, download := fun _ => none, maxPolls := 3 }

/-- The C6 scenario job: `direction = received`,
`date_from = 2025-01-01`, `date_to = 2025-01-31` (day ordinals). -/
def jobJanuary : RetrievalJob :=
  { direction := .received, dateFrom := 20250101, dateTo := 20250131,
    state := .queued, totalFound := none, totalDownloaded := none,
    fallbackFromFull := false, lastError := none }

/-- Closed witness for C6 at the spec's scenario. -/
theorem runJob_emptyResult_is_success_witness :
    remoteEmptyRange.auth = Except.ok () ∧
    ∃ jf, (runJob remoteEmptyRange jobJanuary).1.getLast? = some jf ∧
      jf.state = JobState.success ∧ jf.totalFound = some 0 ∧
      jf.totalDownloaded = some 0 :=
  ⟨rfl, runJob_emptyResult_is_success remoteEmptyRange jobJanuary rfl rfl⟩

/-- Adjacent monotonicity of the fallback indicator along a snapshot list:
once set it is still set in the next persisted snapshot. -/
def monotoneFallback : List RetrievalJob → Bool
  | [] => true
  | [_] => true
  | a :: b :: rest =>
    (!a.fallbackFromFull || b.fallbackFromFull) && monotoneFallback (b :: rest)

/-- Number of `MetadataOnly` request attempts in an attempt log. -/
def countMetadata : List ReqKind → Nat
  | [] => 0
  | .metadataOnly :: ks => countMetadata ks + 1
  | .fullDocument :: ks => countMetadata ks

theorem downloadPhase_flag (remote : RemoteService) (j : RetrievalJob) :
    ∀ (ps : List String) (d : Nat) (f : Bool),
      (downloadPhase remote j ps d f).fallbackFromFull = j.fallbackFromFull := by
  intro ps
  induction ps with
  | nil => intro d f; simp [downloadPhase]
  | cons p ps ih =>
    intro d f
    unfold downloadPhase
    cases remote.download p <;> simp [ih]

theorem pollLoop_flag (remote : RemoteService) (j : RetrievalJob) :
    ∀ (fuel i : Nat), ∀ x ∈ pollLoop remote j fuel i,
      x.fallbackFromFull = j.fallbackFromFull := by
  intro fuel
  induction fuel with
  | zero =>
    intro i x hx
    simp [pollLoop] at hx
    subst hx
    rfl
  | succ n ih =>
    intro i x hx
    unfold pollLoop at hx
    cases hv : remote.verify i <;> rw [hv] at hx
    case inProgress =>
      rcases List.mem_cons.mp hx with h | h
      · subst h; rfl
      · exact ih (i + 1) x h
    case ready pkgs =>
      rcases List.mem_cons.mp hx with h | h
      · subst h; rfl
      · simp at h
        subst h
        rw [downloadPhase_flag]
    case rejected =>
      simp at hx; subst hx; rfl
    case expired =>
      simp at hx; subst hx; rfl

theorem monotoneFallback_of_const (b : Bool) :
    ∀ l : List RetrievalJob, (∀ x ∈ l, x.fallbackFromFull = b) →
      monotoneFallback l = true := by
  intro l
  induction l with
  | nil => intro _; rfl
  | cons a rest ih =>
    intro h
    cases rest with
    | nil => rfl
    | cons c rest2 =>
      have ha := h a (by simp)
      have hc := h c (by simp)
      unfold monotoneFallback
      rw [ha, hc]
      simp only [Bool.and_eq_true]
      constructor
      · cases b <;> simp
      · exact ih (fun x hx => h x (List.mem_cons_of_mem _ hx))

theorem runRequestStage_attempts (remote : RemoteService) :
    (runRequestStage remote).2.2 = [ReqKind.fullDocument] ∨
    (runRequestStage remote).2.2
      = [ReqKind.fullDocument, ReqKind.metadataOnly] := by
  unfold runRequestStage
  cases h : remote.request .fullDocument with
  | ok rid => simp
  | error f =>
    cases f with
    | emptyResult => simp
    | payloadLimit =>
      cases h2 : remote.request .metadataOnly with
      | ok rid => simp [h2]
      | error f2 => cases f2 <;> simp [h2]
    | otherFault c => simp

/-- C7. The FullDocument→MetadataOnly fallback triggers at most once
per job: along the sequence of persisted job snapshots the fallback
indicator, once set, remains set, and at most one `MetadataOnly` request
attempt ever occurs, whatever the remote service does.
(spec-modelled: the orchestrator source is not in the repository snapshot;
the `sat_jobs` migration carries the `fallback_from_cfdi` flag.) -/
theorem runJob_fallback_at_most_once (remote : RemoteService)
    (j0 : RetrievalJob) :
    monotoneFallback (runJob remote j0).1 = true ∧
    countMetadata (runJob remote j0).2 ≤ 1 := by
  have hatts := runRequestStage_attempts remote
  unfold runJob
  cases hauth : remote.auth with
  | error e =>
    dsimp only
    refine ⟨?_, by simp [countMetadata]⟩
    apply monotoneFallback_of_const j0.fallbackFromFull
    intro x hx
    simp at hx
    rcases hx with h | h | h <;> subst h <;> rfl
  | ok u =>
    dsimp only
    rcases hrs : runRequestStage remote with ⟨out, fb, atts⟩
    rw [hrs] at hatts
    simp only at hatts
    have hcnt : countMetadata atts ≤ 1 := by
      rcases hatts with h | h <;> subst h <;> simp [countMetadata]
    cases out with
    | empty =>
      refine ⟨?_, hcnt⟩
      simp [monotoneFallback]
      cases j0.fallbackFromFull <;> simp
    | failed f =>
      refine ⟨?_, hcnt⟩
      simp [monotoneFallback]
      cases j0.fallbackFromFull <;> simp
    | gotId rid =>
      refine ⟨?_, hcnt⟩
      dsimp only
      have htail : monotoneFallback
          ({ j0 with
             state := JobState.verifying,
             fallbackFromFull := j0.fallbackFromFull || fb } ::
            pollLoop remote
              { j0 with
                state := JobState.verifying,
                fallbackFromFull := j0.fallbackFromFull || fb }
              remote.maxPolls 0) = true := by
        apply monotoneFallback_of_const (j0.fallbackFromFull || fb)
        intro x hx
        rcases List.mem_cons.mp hx with h | h
        · subst h; rfl
        · exact pollLoop_flag remote _ remote.maxPolls 0 x h
      simp [monotoneFallback, htail]
      cases j0.fallbackFromFull <;> simp

/-- One entry of a decompressed remote package, as the Package Decoder sees
it after per-entry extraction: its unique identifier (`none` when the
identifier cannot be extracted, i.e. the entry is malformed) and its raw
payload (spec §4.5). -/
structure DecEntry where
  ident : Option String
  payload : String
deriving DecidableEq, Repr

/-- Result of decoding one package: the emitted (identifier, payload)
records in order, the count of duplicate-skips, and the count of malformed
skips (spec §4.5). -/
structure DecodeOut where
  emitted : List (String × String)
  duplicates : Nat
  skipped : Nat
deriving DecidableEq, Repr

/-- Modelled from the spec: one step of the Package Decoder (§4.5) — a
malformed entry is counted as `skipped`; an entry whose identifier was
already seen in this run is counted as a duplicate and not re-emitted;
otherwise the entry is emitted and its identifier recorded as seen.
Missing source: `backend/app/services/sat_provider.py`
(`download_package_xmls`). -/
def decodeStep (acc : DecodeOut × List String) (e : DecEntry) :
    DecodeOut × List String :=
  match e.ident with
  | none => ({ acc.1 with skipped := acc.1.skipped + 1 }, acc.2)
  | some i =>
    if acc.2.contains i then
      ({ acc.1 with duplicates := acc.1.duplicates + 1 }, acc.2)
    else
      ({ acc.1 with emitted := acc.1.emitted ++ [(i, e.payload)] },
       acc.2 ++ [i])

/-- Modelled from the spec: decode a whole package, deduplicating by unique
identifier within the run, first occurrence wins (§4.5). -/
def decodePackage (entries : List DecEntry) : DecodeOut :=
  (entries.foldl decodeStep
    ({ emitted := [], duplicates := 0, skipped := 0 }, [])).1

/-- C3. Decoding a package containing two entries with the same unique
identifier emits exactly one document — the first occurrence, with its
payload — and records exactly one duplicate-skip; the duplicate is not
re-emitted.
(spec-modelled: the decoder source is not in the repository snapshot.) -/
theorem decodePackage_dedupes_pair (e1 e2 : DecEntry) (i : String)
    (h1 : e1.ident = some i) (h2 : e2.ident = some i) :
    decodePackage [e1, e2]
      = { emitted := [(i, e1.payload)], duplicates := 1, skipped := 0 } := by
  unfold decodePackage
  simp [decodeStep, h1, h2]

/-- Closed witness for C3: a two-entry package sharing one UUID. -/
theorem decodePackage_dedupes_pair_witness :
    decodePackage
        [{ ident := some "U1", payload := "xmlA" },
         { ident := some "U1", payload := "xmlB" }]
      = { emitted := [("U1", "xmlA")], duplicates := 1, skipped := 0 } :=
  decodePackage_dedupes_pair
    { ident := some "U1", payload := "xmlA" }
    { ident := some "U1", payload := "xmlB" } "U1" rfl rfl

/-- Modelled from the spec: the persisted job store, job records keyed by
job id (spec §6; backed by the `sat_jobs` table). -/
def JobStore : Type := List (String × RetrievalJob)

/-- Modelled from the spec: `GetJobStatus(jobId)` (§6) — returns a
read-only snapshot of the job record; the store it leaves behind is the
store it was given. Missing source: `backend/app/routers/sat.py`
(`GET /sat/jobs/(id)`). -/
def getJobStatus (store : JobStore) (jobId : String) :
    Option RetrievalJob × JobStore :=
  ((List.lookup jobId store : Option RetrievalJob), store)

/-- Iterated reads: `n` successive status reads of the same job, threading the store (the
dashboard's `pollJob` loop shape). -/
def pollStatus (jobId : String) : Nat → JobStore → JobStore
  | 0, store => store
  | n + 1, store => pollStatus jobId n (getJobStatus store jobId).2

/-- C8. Reading a job's status never mutates any state: after any
number of `GetJobStatus` calls the job store is exactly what it was before
them.
(spec-modelled: the `GET /sat/jobs/(id)` handler is not in the repository
snapshot; `Dashboard.jsx`'s `pollJob` only issues reads.) -/
theorem getJobStatus_read_only (jobId : String) (n : Nat)
    (store : JobStore) : pollStatus jobId n store = store := by
  induction n generalizing store with
  | zero => rfl
  | succ m ih => exact ih store
